import Mathlib

/-!
Shallow embedding of the anomaly-detection engine of the
CentralizedMonitoringOfNetworkDevices repository
(src/anomaly/anomaly_detector.py, src/anomaly/anomaly_monitor_service.py,
src/server/app.py), together with theorems settling the spec claims.

Modelling conventions:
* ISO-8601 timestamp strings are canonical and order-isomorphic to the
  instants they denote (the code compares them as SQLite TEXT, i.e.
  lexicographically, and does datetime arithmetic on them); we embed a
  timestamp as an integer number of seconds, so the 5-minute dedup window
  is 300 and string comparison becomes integer comparison.
* Numeric metric values are embedded as rationals.  `np.std` is the square
  root of the population variance and is in general irrational, so every
  quantity the code obtains by dividing by a standard deviation is embedded
  by its square: for nonnegative `z` and `t`, `z > t` iff `z^2 > t^2`, and
  `z^2 = (x - mean)^2 / variance` is rational.  The `statSq` field below is
  the square of the `z_score` / `deviation` float the code stores, and the
  source thresholds 3.0 / 4.0 / 2.0 / 3.0 appear as their squares where the
  code compares against them.
* The scikit-learn models are embedded abstractly: a fitted model is the
  feature matrix it was fitted on, and the predictions/scores a fitted
  model produces on a feature matrix are given by an arbitrary function
  (`mIF`, `mLOF` below); with `random_state=42` the real models are
  deterministic, which this captures.  Calling `predict` on an unfitted
  model raises `NotFittedError`, which `detect_ml_anomalies` catches and
  turns into an empty result.
* SQLite tables are embedded as lists of rows plus the AUTOINCREMENT
  counter.
-/

namespace CMND

/-- Severity of an anomaly: the code only ever assigns "medium" or "high". -/
inductive Severity where
  | medium : Severity
  | high : Severity
deriving DecidableEq, Repr, Inhabited

/-- One row of the `metrics_logs` table (spec §3 MetricRecord).  The five
numeric fields are nullable in the schema, hence `Option ℚ`. -/
structure MetricRecord where
  device_id : Int
  timestamp : Int
  cpu : Option ℚ
  ram : Option ℚ
  disk : Option ℚ
  net_sent : Option ℚ
  net_recv : Option ℚ
deriving DecidableEq, Repr, Inhabited

/-- `AnomalyDetector.prepare_features`: `m.get(k, 0) or 0` collapses a
missing/None/0 value to 0, i.e. `Option.getD 0`. -/
def prepare_features (metrics : List MetricRecord) : List (List ℚ) :=
  metrics.map fun m =>
    [m.cpu.getD 0, m.ram.getD 0, m.disk.getD 0, m.net_sent.getD 0, m.net_recv.getD 0]

/-- The fixed feature order of `prepare_features` (source `metric_names`). -/
def metric_names : List String := ["cpu", "ram", "disk", "net_sent", "net_recv"]

/-- Column mean of a feature matrix: `np.mean(features, axis=0)` at column `j`. -/
def colMean (features : List (List ℚ)) (j : Nat) : ℚ :=
  (features.map fun row => row.getD j 0).sum / (features.length : ℚ)

/-- Column population variance: the square of `np.std(features, axis=0)` at
column `j` (numpy's default `ddof=0`). -/
def colVar (features : List (List ℚ)) (j : Nat) : ℚ :=
  (features.map fun row => (row.getD j 0 - colMean features j) ^ 2).sum /
    (features.length : ℚ)

/-- `np.where(std == 0, 1, std)` squared: substituting 1 for a zero standard
deviation is substituting 1 for a zero variance. -/
def substVar (v : ℚ) : ℚ := if v = 0 then 1 else v

/-- One entry of a statistical anomaly's `anomalous_metrics` list.
`statSq` is the square of the stored `z_score` / `deviation` float, and
`baseVarSub` the square of the stored (substituted) `std` / `moving_std`. -/
structure AnomalousMetric where
  metric : String
  value : ℚ
  statSq : ℚ
  baseMean : ℚ
  baseVarSub : ℚ
deriving DecidableEq, Repr, Inhabited

/-- One anomaly dict as produced by the detectors.  Statistical methods fill
`anomalous_metrics` (and leave `anomaly_score` empty); ML methods fill
`anomaly_score` and `metrics_snapshot` (and leave `anomalous_metrics` empty),
mirroring the two dict shapes in the source. -/
structure Anomaly where
  timestamp : Int
  device_id : Int
  method : String
  anomalous_metrics : List AnomalousMetric
  anomaly_score : Option ℚ
  metrics_snapshot : List (String × Option ℚ)
  severity : Severity
deriving DecidableEq, Repr, Inhabited

/-- Severity line of `detect_zscore_anomalies`:
`'high' if max(m.z_score for m in ams) > 4 else 'medium'`.  On the (always
nonempty) list this is: some entry's z-score exceeds 4, i.e. `statSq > 16`. -/
def zscoreSeverity (ams : List AnomalousMetric) : Severity :=
  if ams.any fun am => am.statSq > 16 then .high else .medium

/-- Per-record inner loop of `detect_zscore_anomalies`: the anomalous-metric
entries of one feature row against the whole-window baseline.
`z > threshold` is embedded as `zSq > threshold^2`. -/
def zscoreMetricsFor (features : List (List ℚ)) (threshold : ℚ) (row : List ℚ) :
    List AnomalousMetric :=
  (List.range 5).filterMap fun j =>
    let x := row.getD j 0
    let mean := colMean features j
    let vs := substVar (colVar features j)
    let zSq := (x - mean) ^ 2 / vs
    if zSq > threshold ^ 2 then
      some ⟨metric_names.getD j "", x, zSq, mean, vs⟩
    else none

/-- `AnomalyDetector.detect_zscore_anomalies` (source default threshold 3.0). -/
def detect_zscore_anomalies (metrics : List MetricRecord) (threshold : ℚ) :
    List Anomaly :=
  if metrics.length < 10 then [] else
  let features := prepare_features metrics
  (metrics.zip features).filterMap fun p =>
    let ams := zscoreMetricsFor features threshold p.2
    if ams.isEmpty then none
    else some
      { timestamp := p.1.timestamp
        device_id := p.1.device_id
        method := "z-score"
        anomalous_metrics := ams
        anomaly_score := none
        metrics_snapshot := []
        severity := zscoreSeverity ams }

/-- Severity line of `detect_moving_average_anomalies`:
`'high' if max(m.deviation for m in ams) > 3 else 'medium'`, squared. -/
def maSeverity (ams : List AnomalousMetric) : Severity :=
  if ams.any fun am => am.statSq > 9 then .high else .medium

/-- Per-position inner loop of `detect_moving_average_anomalies`: deviations of
`current` from the mean/std of the preceding `window_data`, squared. -/
def maMetricsFor (window_data : List (List ℚ)) (threshold : ℚ) (current : List ℚ) :
    List AnomalousMetric :=
  (List.range 5).filterMap fun j =>
    let x := current.getD j 0
    let mAvg := colMean window_data j
    let vs := substVar (colVar window_data j)
    let devSq := (x - mAvg) ^ 2 / vs
    if devSq > threshold ^ 2 then
      some ⟨metric_names.getD j "", x, devSq, mAvg, vs⟩
    else none

/-- `AnomalyDetector.detect_moving_average_anomalies` (source defaults
`window=10`, `threshold=2.0`).  For each `i` in `range(window, len(features))`
the baseline is `features[i-window:i]` and the evaluated point `features[i]`. -/
def detect_moving_average_anomalies (metrics : List MetricRecord)
    (window : Nat) (threshold : ℚ) : List Anomaly :=
  if metrics.length < window + 5 then [] else
  let features := prepare_features metrics
  ((List.range features.length).drop window).filterMap fun i =>
    let window_data := (features.drop (i - window)).take window
    let current := features.getD i []
    let ams := maMetricsFor window_data threshold current
    if ams.isEmpty then none
    else some
      { timestamp := (metrics.getD i default).timestamp
        device_id := (metrics.getD i default).device_id
        method := "moving_average"
        anomalous_metrics := ams
        anomaly_score := none
        metrics_snapshot := []
        severity := maSeverity ams }

/-- Mutable state of an `AnomalyDetector` instance: the two scikit-learn
models (a fitted model is represented by the feature matrix it was fitted on,
`none` = not yet fitted) and the single shared `trained` flag. -/
structure DetectorState where
  ifFit : Option (List (List ℚ))
  lofFit : Option (List (List ℚ))
  trained : Bool
deriving DecidableEq, Repr

/-- `AnomalyDetector.__init__`: fresh unfitted models, `trained = False`. -/
def initDetector : DetectorState := ⟨none, none, false⟩

/-- A model's behaviour: given the matrix it was fitted on and the matrix to
evaluate, one `(prediction, score)` pair per evaluated sample (`-1` prediction
= outlier).  `random_state=42` makes the real models deterministic. -/
def MLModel : Type := List (List ℚ) → List (List ℚ) → List (Int × ℚ)

/-- Severity line of `detect_ml_anomalies`: `'high' if score < -0.5 else 'medium'`. -/
def mlSeverity (score : ℚ) : Severity :=
  if score < -(1 / 2) then .high else .medium

/-- Result-assembly loop of `detect_ml_anomalies`: one anomaly per sample whose
prediction is `-1`, carrying the raw (nullable) metric snapshot. -/
def mlAnomalies (metrics : List MetricRecord) (method : String)
    (results : List (Int × ℚ)) : List Anomaly :=
  (metrics.zip results).filterMap fun p =>
    if p.2.1 = -1 then
      some
        { timestamp := p.1.timestamp
          device_id := p.1.device_id
          method := method
          anomalous_metrics := []
          anomaly_score := some p.2.2
          metrics_snapshot :=
            [("cpu", p.1.cpu), ("ram", p.1.ram), ("disk", p.1.disk),
             ("net_sent", p.1.net_sent), ("net_recv", p.1.net_recv)]
          severity := mlSeverity p.2.2 }
    else none

/-- `AnomalyDetector.detect_ml_anomalies`.  With fewer than 50 records it
returns `[]` untouched.  Otherwise, for the selected model: if `trained` is
not yet set the model is fitted on the current features; `predict` on a model
that was never fitted raises `NotFittedError`, which the `except` clause turns
into an empty result with no state change; on success `trained` is set. -/
def detect_ml_anomalies (mIF mLOF : MLModel) (s : DetectorState)
    (metrics : List MetricRecord) (method : String) :
    DetectorState × List Anomaly :=
  if metrics.length < 50 then (s, []) else
  let features := prepare_features metrics
  if method = "isolation_forest" then
    let fit := if s.trained then s.ifFit else some features
    match fit with
    | none => (s, [])
    | some d =>
      (⟨some d, s.lofFit, true⟩, mlAnomalies metrics method (mIF d features))
  else
    let fit := if s.trained then s.lofFit else some features
    match fit with
    | none => (s, [])
    | some d =>
      (⟨s.ifFit, some d, true⟩, mlAnomalies metrics method (mLOF d features))

/-- `AnomalyDetector.detect_all_anomalies`.  The 24-hour window fetched by
`get_recent_metrics(device_id, 24)` is passed in as `metrics` (the Metric
Store is an external collaborator).  Empty window: empty dict.  Otherwise the
dict literal evaluates its four entries in source order, threading the
detector state through the two ML calls. -/
def detect_all_anomalies (mIF mLOF : MLModel) (s : DetectorState)
    (metrics : List MetricRecord) :
    DetectorState × List (String × List Anomaly) :=
  if metrics.isEmpty then (s, []) else
  let z := detect_zscore_anomalies metrics 3
  let ma := detect_moving_average_anomalies metrics 10 2
  let r1 := detect_ml_anomalies mIF mLOF s metrics "isolation_forest"
  let r2 := detect_ml_anomalies mIF mLOF r1.1 metrics "lof"
  (r2.1,
   [("z_score", z), ("moving_average", ma),
    ("isolation_forest", r1.2), ("lof", r2.2)])

/-- The summary dict returned by `get_anomaly_summary`. -/
structure AnomalySummary where
  device_id : Int
  total_anomalies : Nat
  high_severity_count : Nat
  medium_severity_count : Nat
  by_method : List (String × Nat)
  detailed_anomalies : List (String × List Anomaly)
deriving DecidableEq, Repr

/-- `AnomalyDetector.get_anomaly_summary`: runs `detect_all_anomalies` on the
fetched window and aggregates counts. -/
def get_anomaly_summary (mIF mLOF : MLModel) (s : DetectorState)
    (device_id : Int) (metrics : List MetricRecord) :
    DetectorState × AnomalySummary :=
  let r := detect_all_anomalies mIF mLOF s metrics
  let total := (r.2.map fun p => p.2.length).sum
  let high :=
    (r.2.map fun p => (p.2.filter fun a => a.severity = .high).length).sum
  (r.1,
   { device_id := device_id
     total_anomalies := total
     high_severity_count := high
     medium_severity_count := total - high
     by_method := r.2.map fun p => (p.1, p.2.length)
     detailed_anomalies := r.2 })

/-- One row of the `anomalies` table (spec §3 AnomalyEvent). -/
structure AnomalyEvent where
  id : Nat
  timestamp : Int
  device_id : Int
  detection_method : String
  severity : Severity
  details : Anomaly
  acknowledged : Bool
deriving DecidableEq, Repr, Inhabited

/-- The `anomalies` table: its rows in insertion order plus the SQLite
AUTOINCREMENT counter for the `id` primary key. -/
structure Ledger where
  rows : List AnomalyEvent
  nextId : Nat
deriving DecidableEq, Repr

/-- An empty `anomalies` table (AUTOINCREMENT starts at 1). -/
def initLedger : Ledger := ⟨[], 1⟩

/-- `save_anomaly_to_db`: an unconditional INSERT of
`(timestamp, device_id, method, severity, details)`; `acknowledged` takes its
schema default 0 and `id` the next AUTOINCREMENT value.  The `details` column
holds the whole anomaly dict serialized as JSON; we keep the structured value. -/
def save_anomaly_to_db (db : Ledger) (a : Anomaly) : Ledger :=
  ⟨db.rows ++
     [⟨db.nextId, a.timestamp, a.device_id, a.method, a.severity, a, false⟩],
   db.nextId + 1⟩

/-- `is_duplicate_anomaly` (monitor service): COUNT of rows with the same
`device_id` and `detection_method` whose timestamp lies in the half-open
window `(a.timestamp - 5 min, a.timestamp]` is positive.  The cutoff
`timestamp - timedelta(minutes=tw)` is `a.timestamp - tw * 60` seconds. -/
def is_duplicate_anomaly (db : Ledger) (a : Anomaly) (time_window_minutes : Int) :
    Bool :=
  db.rows.any fun e =>
    e.device_id == a.device_id && e.detection_method == a.method &&
      a.timestamp - time_window_minutes * 60 < e.timestamp &&
      e.timestamp ≤ a.timestamp

/-- Inner persistence step of `monitor_anomalies` (the scheduled scan loop):
`if not is_duplicate_anomaly(anomaly): save_anomaly_to_db(anomaly);
total_anomalies_found += 1`. -/
def monitor_persist_anomaly (db : Ledger) (count : Nat) (a : Anomaly) :
    Ledger × Nat :=
  if is_duplicate_anomaly db a 5 then (db, count)
  else (save_anomaly_to_db db a, count + 1)

/-- Inner persistence step of the `/api/anomalies/detect` endpoint
(`api_detect_anomalies`): `save_anomaly_to_db(anomaly); saved_count += 1`,
with no duplicate check. -/
def api_persist_anomaly (db : Ledger) (saved_count : Nat) (a : Anomaly) :
    Ledger × Nat :=
  (save_anomaly_to_db db a, saved_count + 1)

/-- Outcome of the acknowledge endpoint: HTTP 200 with the id, or 404. -/
inductive AckResult where
  | ok (anomaly_id : Nat) : AckResult
  | notFound : AckResult
deriving DecidableEq, Repr

/-- `api_acknowledge_anomaly`: `UPDATE anomalies SET acknowledged = 1 WHERE
id = ?`; if `rowcount == 0` the connection is closed without commit and 404 is
returned (the table is untouched), otherwise the update is committed. -/
def api_acknowledge_anomaly (db : Ledger) (anomaly_id : Nat) :
    AckResult × Ledger :=
  let matched := db.rows.filter fun e => e.id == anomaly_id
  if matched.length = 0 then (.notFound, db)
  else
    (.ok anomaly_id,
     ⟨db.rows.map fun e =>
        if e.id == anomaly_id then { e with acknowledged := true } else e,
      db.nextId⟩)

/-- `cleanup_old_anomalies`: `DELETE FROM anomalies WHERE timestamp < ?` with
cutoff `now - days`, returning the DELETE rowcount.  The cutoff instant is
passed in (the code computes it from the wall clock). -/
def cleanup_old_anomalies (db : Ledger) (cutoff : Int) : Ledger × Nat :=
  (⟨db.rows.filter fun e => ¬ e.timestamp < cutoff, db.nextId⟩,
   (db.rows.filter fun e => e.timestamp < cutoff).length)

/-- The ordering used by `get_all_anomalies`: `ORDER BY id DESC`. -/
def byIdDesc (a b : AnomalyEvent) : Prop := b.id ≤ a.id

instance : DecidableRel byIdDesc := fun a b => Nat.decLe b.id a.id

instance : IsTotal AnomalyEvent byIdDesc := ⟨fun a b => Nat.le_total b.id a.id⟩

instance : IsTrans AnomalyEvent byIdDesc :=
  ⟨fun _ _ _ h1 h2 => Nat.le_trans h2 h1⟩

/-- `get_all_anomalies(limit, device_id)`: `SELECT * ... ORDER BY id DESC
LIMIT ?`, with a `WHERE device_id = ?` clause only when the Python-truthy
check `if device_id:` passes (i.e. the argument is given and nonzero). -/
def get_all_anomalies (db : Ledger) (limit : Nat) (device_id : Option Int) :
    List AnomalyEvent :=
  if device_id.getD 0 ≠ 0 then
    (List.insertionSort byIdDesc
        (db.rows.filter fun e => e.device_id == device_id.getD 0)).take limit
  else
    (List.insertionSort byIdDesc db.rows).take limit

/-! ### Theorems -/

/-- C3: a window with fewer than 10 records makes the z-score detector return
an empty sequence; fewer than 15 (= `window + 5` at the default window 10)
makes the moving-average detector return an empty sequence; fewer than 50
makes both ML detection calls return an empty sequence (with the detector
state untouched).  Each is an ordinary empty return, not an error. -/
theorem insufficient_data_yields_empty (metrics : List MetricRecord) :
    (metrics.length < 10 →
      ∀ t : ℚ, detect_zscore_anomalies metrics t = []) ∧
    (metrics.length < 15 →
      ∀ t : ℚ, detect_moving_average_anomalies metrics 10 t = []) ∧
    (metrics.length < 50 →
      ∀ (mIF mLOF : MLModel) (s : DetectorState) (method : String),
        detect_ml_anomalies mIF mLOF s metrics method = (s, [])) := by
  refine ⟨fun h t => ?_, fun h t => ?_, fun h mIF mLOF s m => ?_⟩
  · simp [detect_zscore_anomalies, h]
  · simp only [detect_moving_average_anomalies]
    norm_num [h]
  · simp [detect_ml_anomalies, h]

/-- Witness for `insufficient_data_yields_empty` at the empty window. -/
theorem insufficient_data_yields_empty_witness :
    detect_zscore_anomalies [] 3 = [] ∧
    detect_moving_average_anomalies [] 10 2 = [] ∧
    detect_ml_anomalies (fun _ _ => []) (fun _ _ => []) initDetector [] "lof" =
      (initDetector, []) :=
  ⟨(insufficient_data_yields_empty []).1 (by decide) 3,
   (insufficient_data_yields_empty []).2.1 (by decide) 2,
   (insufficient_data_yields_empty []).2.2 (by decide) _ _ _ _⟩

/-- C10: on an empty fetched window `detect_all_anomalies` returns an empty
mapping (and leaves the state alone); on a nonempty window the mapping has
exactly the four keys `z_score`, `moving_average`, `isolation_forest`, `lof`,
in that order. -/
theorem detect_all_anomalies_keys (mIF mLOF : MLModel) (s : DetectorState)
    (metrics : List MetricRecord) :
    (metrics = [] → detect_all_anomalies mIF mLOF s metrics = (s, [])) ∧
    (metrics ≠ [] →
      (detect_all_anomalies mIF mLOF s metrics).2.map Prod.fst =
        ["z_score", "moving_average", "isolation_forest", "lof"]) := by
  constructor
  · intro h
    subst h
    simp [detect_all_anomalies]
  · intro h
    simp [detect_all_anomalies, h]

/-- Witness for `detect_all_anomalies_keys` at the empty window and at a
one-record window. -/
theorem detect_all_anomalies_keys_witness :
    detect_all_anomalies (fun _ _ => []) (fun _ _ => []) initDetector [] =
      (initDetector, []) ∧
    (detect_all_anomalies (fun _ _ => []) (fun _ _ => []) initDetector
        [⟨1, 0, none, none, none, none, none⟩]).2.map Prod.fst =
      ["z_score", "moving_average", "isolation_forest", "lof"] :=
  ⟨(detect_all_anomalies_keys _ _ _ _).1 rfl,
   (detect_all_anomalies_keys _ _ _ _).2 (by simp)⟩

/-- C5's transfer lemma: if one list of anomalous-metric entries dominates
another pointwise in squared deviation, any threshold exceeded somewhere in
the smaller list is exceeded in the larger one. -/
theorem any_statSq_mono (c : ℚ) :
    ∀ {l l' : List AnomalousMetric},
      List.Forall₂ (fun a b => a.statSq ≤ b.statSq) l l' →
      (l.any fun am => am.statSq > c) = true →
      (l'.any fun am => am.statSq > c) = true := by
  intro l l' h
  induction h with
  | nil => simp
  | cons hab _ ih =>
    simp only [List.any_cons, Bool.or_eq_true, decide_eq_true_eq]
    rintro (h1 | h2)
    · exact Or.inl (lt_of_lt_of_le h1 hab)
    · exact Or.inr (ih h2)

/-- C5: per method, severity is monotone in deviation magnitude.  Increasing
the (squared) z-scores of a z-score candidate's entries pointwise, or the
(squared) deviations of a moving-average candidate's entries, or making an ML
anomaly score more negative, never turns an assigned `high` into `medium`. -/
theorem severity_monotone_in_deviation :
    (∀ ams ams' : List AnomalousMetric,
      List.Forall₂ (fun a b => a.statSq ≤ b.statSq) ams ams' →
      zscoreSeverity ams = .high → zscoreSeverity ams' = .high) ∧
    (∀ ams ams' : List AnomalousMetric,
      List.Forall₂ (fun a b => a.statSq ≤ b.statSq) ams ams' →
      maSeverity ams = .high → maSeverity ams' = .high) ∧
    (∀ s s' : ℚ, s' ≤ s → mlSeverity s = .high → mlSeverity s' = .high) := by
  refine ⟨fun ams ams' hf h => ?_, fun ams ams' hf h => ?_, fun s s' hle h => ?_⟩
  · unfold zscoreSeverity at h ⊢
    split at h
    · next hany => simp [any_statSq_mono 16 hf hany]
    · exact absurd h (by simp)
  · unfold maSeverity at h ⊢
    split at h
    · next hany => simp [any_statSq_mono 9 hf hany]
    · exact absurd h (by simp)
  · unfold mlSeverity at h ⊢
    split at h
    · next hlt => rw [if_pos (lt_of_le_of_lt hle hlt)]
    · exact absurd h (by simp)

/-- Witness for `severity_monotone_in_deviation` on concrete entries. -/
theorem severity_monotone_in_deviation_witness :
    zscoreSeverity [⟨"cpu", 90, 25, 20, 1⟩] = .high ∧
    maSeverity [⟨"ram", 80, 16, 30, 1⟩] = .high ∧
    mlSeverity (-2) = .high :=
  ⟨severity_monotone_in_deviation.1 [⟨"cpu", 90, 17, 20, 1⟩] _
      (List.Forall₂.cons (by norm_num) List.Forall₂.nil)
      (by norm_num [zscoreSeverity]),
   severity_monotone_in_deviation.2.1 [⟨"ram", 80, 10, 30, 1⟩] _
      (List.Forall₂.cons (by norm_num) List.Forall₂.nil)
      (by norm_num [maSeverity]),
   severity_monotone_in_deviation.2.2 (-1) (-2) (by norm_num)
      (by norm_num [mlSeverity])⟩

/-- A full detection pass leaves the detector in a state from which an
identical pass over the same window reproduces the same state and results:
the first pass either fits the isolation forest (setting the shared `trained`
flag) or changes nothing, and from then on no call changes the model state. -/
theorem detect_all_anomalies_stable (mIF mLOF : MLModel) (s : DetectorState)
    (metrics : List MetricRecord) :
    detect_all_anomalies mIF mLOF
        (detect_all_anomalies mIF mLOF s metrics).1 metrics =
      detect_all_anomalies mIF mLOF s metrics := by
  obtain ⟨if0, lof0, t0⟩ := s
  by_cases hemp : metrics.isEmpty
  · simp [detect_all_anomalies, hemp]
  · by_cases h50 : metrics.length < 50
    · simp [detect_all_anomalies, detect_ml_anomalies, hemp, h50]
    · cases t0 <;> cases if0 <;> cases lof0 <;>
        simp [detect_all_anomalies, detect_ml_anomalies, hemp, h50]

/-- C9: `get_anomaly_summary` is idempotent on unchanged stored data — run a
second time on the same fetched window (threading the detector state), it
returns the identical summary: same totals, same high/medium split, same
per-method counts, same detailed results. -/
theorem get_anomaly_summary_idempotent (mIF mLOF : MLModel)
    (s : DetectorState) (device_id : Int) (metrics : List MetricRecord) :
    (get_anomaly_summary mIF mLOF
        (get_anomaly_summary mIF mLOF s device_id metrics).1
        device_id metrics).2 =
      (get_anomaly_summary mIF mLOF s device_id metrics).2 := by
  unfold get_anomaly_summary
  rw [detect_all_anomalies_stable]

/-- A record with all metric fields NULL, for concrete test windows. -/
def nullRecord : MetricRecord := ⟨1, 0, none, none, none, none, none⟩

/-- A 50-record window, the minimum size the ML detectors accept. -/
def fiftyRecords : List MetricRecord := List.replicate 50 nullRecord

/-- A model behaviour that flags nothing, for concrete runs. -/
def nullModel : MLModel := fun _ _ => []

/-- C2 counterexample: with a fresh detector, run isolation forest on a
50-record window, then run LOF on the same window.  The LOF call has at least
50 records and is the first detection call for the LOF model, yet it does not
fit the model (the LOF fitted state is still empty afterwards) and returns an
empty result — because the single shared `trained` flag was already set by
the isolation-forest call, and `predict` on the unfitted LOF model raises
`NotFittedError`, which is swallowed. -/
theorem ml_detectors_share_trained_flag_cex :
    fiftyRecords.length = 50 ∧
    (detect_ml_anomalies nullModel nullModel initDetector fiftyRecords
        "isolation_forest").1.trained = true ∧
    (detect_ml_anomalies nullModel nullModel
        (detect_ml_anomalies nullModel nullModel initDetector fiftyRecords
          "isolation_forest").1
        fiftyRecords "lof").1.lofFit = none ∧
    (detect_ml_anomalies nullModel nullModel
        (detect_ml_anomalies nullModel nullModel initDetector fiftyRecords
          "isolation_forest").1
        fiftyRecords "lof").2 = [] :=
  ⟨rfl, rfl, rfl, rfl⟩

/-- Run a sequence of ML detection calls, threading the detector state. -/
def runMLCalls (mIF mLOF : MLModel) (s : DetectorState)
    (calls : List (List MetricRecord × String)) : DetectorState :=
  calls.foldl (fun st c => (detect_ml_anomalies mIF mLOF st c.1 c.2).1) s

/-- Invariant of detector states reachable from `initDetector`. -/
def DetectorInv (s : DetectorState) : Prop :=
  (s.trained = false → s.ifFit = none ∧ s.lofFit = none) ∧
    (s.ifFit = none ∨ s.lofFit = none)

theorem detectorInv_init : DetectorInv initDetector := by
  constructor <;> simp [initDetector]

theorem detectorInv_step (mIF mLOF : MLModel) (s : DetectorState)
    (metrics : List MetricRecord) (method : String) (h : DetectorInv s) :
    DetectorInv (detect_ml_anomalies mIF mLOF s metrics method).1 := by
  obtain ⟨if0, lof0, t0⟩ := s
  obtain ⟨h1, h2⟩ := h
  by_cases h50 : metrics.length < 50
  · simpa [detect_ml_anomalies, h50] using ⟨h1, h2⟩
  · by_cases hm : method = "isolation_forest" <;> cases t0 <;>
      rcases if0 with _ | dIF <;> rcases lof0 with _ | dLOF <;>
      simp_all [detect_ml_anomalies, if_neg h50, DetectorInv]

theorem detectorInv_run (mIF mLOF : MLModel)
    (calls : List (List MetricRecord × String)) (s : DetectorState)
    (h : DetectorInv s) :
    DetectorInv (runMLCalls mIF mLOF s calls) := by
  induction calls generalizing s with
  | nil => exact h
  | cons c cs ih =>
    exact ih _ (detectorInv_step mIF mLOF s c.1 c.2 h)

/-- C2 amended: the two model-based detectors share one `trained` flag rather
than per-model fitted state.  Over an `AnomalyDetector` instance's lifetime,
after any sequence of detection calls starting from a fresh instance, at most
one of the two models has ever been fitted; and once the shared flag is set,
no later call fits or re-fits either model. -/
theorem ml_detectors_share_trained_flag (mIF mLOF : MLModel)
    (calls : List (List MetricRecord × String)) :
    ((runMLCalls mIF mLOF initDetector calls).ifFit = none ∨
      (runMLCalls mIF mLOF initDetector calls).lofFit = none) ∧
    (∀ (s : DetectorState) (metrics : List MetricRecord) (method : String),
      s.trained = true →
      (detect_ml_anomalies mIF mLOF s metrics method).1.ifFit = s.ifFit ∧
        (detect_ml_anomalies mIF mLOF s metrics method).1.lofFit = s.lofFit) := by
  constructor
  · exact (detectorInv_run mIF mLOF calls initDetector detectorInv_init).2
  · intro s metrics method ht
    obtain ⟨if0, lof0, t0⟩ := s
    cases t0
    · cases ht
    · by_cases h50 : metrics.length < 50
      · simp [detect_ml_anomalies, h50]
      · by_cases hm : method = "isolation_forest" <;>
          rcases if0 with _ | dIF <;> rcases lof0 with _ | dLOF <;>
          simp_all [detect_ml_anomalies, if_neg h50]

/-- Witness for `ml_detectors_share_trained_flag`: one isolation-forest call
on a 50-record window from a fresh instance sets the shared flag; a
subsequent LOF call changes neither model's fitted state. -/
theorem ml_detectors_share_trained_flag_witness :
    ((runMLCalls nullModel nullModel initDetector
        [(fiftyRecords, "isolation_forest")]).ifFit = none ∨
      (runMLCalls nullModel nullModel initDetector
        [(fiftyRecords, "isolation_forest")]).lofFit = none) ∧
    ((detect_ml_anomalies nullModel nullModel
        ⟨some (prepare_features fiftyRecords), none, true⟩ fiftyRecords
        "lof").1.ifFit = some (prepare_features fiftyRecords) ∧
      (detect_ml_anomalies nullModel nullModel
        ⟨some (prepare_features fiftyRecords), none, true⟩ fiftyRecords
        "lof").1.lofFit = none) :=
  ⟨(ml_detectors_share_trained_flag nullModel nullModel
      [(fiftyRecords, "isolation_forest")]).1,
   (ml_detectors_share_trained_flag nullModel nullModel
      [(fiftyRecords, "isolation_forest")]).2
     ⟨some (prepare_features fiftyRecords), none, true⟩ fiftyRecords "lof" rfl⟩

/-- A concrete detection payload: device 7, z-score method, timestamp 1000 s. -/
def dupAnomaly0 : Anomaly := ⟨1000, 7, "z-score", [], none, [], .medium⟩

/-- A second detection for the same device and method 100 s later — inside
the trailing 5-minute dedup window. -/
def dupAnomaly1 : Anomaly := ⟨1100, 7, "z-score", [], none, [], .high⟩

/-- A ledger already holding `dupAnomaly0`. -/
def dupLedger : Ledger := save_anomaly_to_db initLedger dupAnomaly0

/-- C1 counterexample: `dupAnomaly1` is a duplicate of the stored
`dupAnomaly0` (same device, same method, 100 s apart), yet the persist
operation `save_anomaly_to_db` still inserts it — the table grows from one
row to two — and the `/api/anomalies/detect` persist path saves and counts
it.  The dedup check is not built into persist; it lives only in the monitor
loop, so not every persisting path applies it. -/
theorem persist_lacks_dedup_cex :
    is_duplicate_anomaly dupLedger dupAnomaly1 5 = true ∧
    dupLedger.rows.length = 1 ∧
    (save_anomaly_to_db dupLedger dupAnomaly1).rows.length = 2 ∧
    (api_persist_anomaly dupLedger 0 dupAnomaly1).1.rows.length = 2 ∧
    (api_persist_anomaly dupLedger 0 dupAnomaly1).2 = 1 :=
  ⟨rfl, rfl, rfl, rfl, rfl⟩

/-- C1 amended: the dedup check is applied only on the monitor-service scan
path, not inside persist.  On that path, if the ledger already holds an event
for the same device and method whose timestamp lies in the trailing 5-minute
window ending at the new event's timestamp, the new event is suppressed —
not persisted and not counted; otherwise it is appended (with the schema
defaults) and counted.  The bare persist operation and the manual-detection
API path insert unconditionally. -/
theorem monitor_path_dedup (db : Ledger) (count : Nat) (a : Anomaly) :
    ((∃ e ∈ db.rows, e.device_id = a.device_id ∧
        e.detection_method = a.method ∧
        a.timestamp - 300 < e.timestamp ∧ e.timestamp ≤ a.timestamp) →
      monitor_persist_anomaly db count a = (db, count)) ∧
    ((∀ e ∈ db.rows, ¬(e.device_id = a.device_id ∧
        e.detection_method = a.method ∧
        a.timestamp - 300 < e.timestamp ∧ e.timestamp ≤ a.timestamp)) →
      (monitor_persist_anomaly db count a).1.rows =
        db.rows ++ [⟨db.nextId, a.timestamp, a.device_id, a.method,
                     a.severity, a, false⟩] ∧
        (monitor_persist_anomaly db count a).2 = count + 1) ∧
    ((api_persist_anomaly db count a).1.rows.length = db.rows.length + 1 ∧
      (api_persist_anomaly db count a).2 = count + 1) := by
  have hiff : is_duplicate_anomaly db a 5 = true ↔
      ∃ e ∈ db.rows, e.device_id = a.device_id ∧
        e.detection_method = a.method ∧
        a.timestamp - 300 < e.timestamp ∧ e.timestamp ≤ a.timestamp := by
    unfold is_duplicate_anomaly
    rw [List.any_eq_true]
    constructor
    · rintro ⟨e, he, hp⟩
      simp only [Bool.and_eq_true, beq_iff_eq, decide_eq_true_eq] at hp
      exact ⟨e, he, hp.1.1.1, hp.1.1.2, by linarith [hp.1.2], hp.2⟩
    · rintro ⟨e, he, h1, h2, h3, h4⟩
      refine ⟨e, he, ?_⟩
      simp only [Bool.and_eq_true, beq_iff_eq, decide_eq_true_eq]
      exact ⟨⟨⟨h1, h2⟩, by linarith⟩, h4⟩
  refine ⟨fun hdup => ?_, fun hnone => ?_, ?_, rfl⟩
  · unfold monitor_persist_anomaly
    rw [if_pos (hiff.mpr hdup)]
  · have hfalse : is_duplicate_anomaly db a 5 = false := by
      rcases Bool.eq_false_or_eq_true (is_duplicate_anomaly db a 5) with h | h
      · obtain ⟨e, he, hp⟩ := hiff.mp h
        exact absurd hp (hnone e he)
      · exact h
    unfold monitor_persist_anomaly
    rw [if_neg (by simp [hfalse])]
    exact ⟨rfl, rfl⟩
  · simp [api_persist_anomaly, save_anomaly_to_db]

/-- Witness for `monitor_path_dedup`: the duplicate from the counterexample
setup is suppressed by the monitor path, and a first event on an empty ledger
is appended and counted. -/
theorem monitor_path_dedup_witness :
    monitor_persist_anomaly dupLedger 3 dupAnomaly1 = (dupLedger, 3) ∧
    (monitor_persist_anomaly initLedger 0 dupAnomaly0).1.rows =
      [⟨1, 1000, 7, "z-score", .medium, dupAnomaly0, false⟩] ∧
    (monitor_persist_anomaly initLedger 0 dupAnomaly0).2 = 1 :=
  ⟨(monitor_path_dedup dupLedger 3 dupAnomaly1).1
     ⟨⟨1, 1000, 7, "z-score", .medium, dupAnomaly0, false⟩, by decide⟩,
   ((monitor_path_dedup initLedger 0 dupAnomaly0).2.1 (by decide)).1,
   ((monitor_path_dedup initLedger 0 dupAnomaly0).2.1 (by decide)).2⟩

/-- `getD` commutes with `map` below the length. -/
theorem getD_map_lt (f : AnomalyEvent → AnomalyEvent) :
    ∀ (l : List AnomalyEvent) (j : Nat), j < l.length →
      (l.map f).getD j default = f (l.getD j default)
  | [], j, h => absurd h (by simp)
  | e :: t, 0, _ => by simp
  | e :: t, j + 1, h => by
    simp only [List.map_cons, List.getD_cons_succ]
    exact getD_map_lt f t j (by simpa using h)

/-- C6: acknowledging an event id present in the ledger returns the success
result and afterwards that event is stored with `acknowledged = true`; every
event keeps its position, id, timestamp, device, method, severity and details,
and events with other ids keep their acknowledged flag.  Acknowledging an
absent id returns the distinct NotFound result and leaves the ledger exactly
as it was. -/
theorem api_acknowledge_anomaly_spec (db : Ledger) (anomaly_id : Nat) :
    ((∃ e ∈ db.rows, e.id = anomaly_id) →
      (api_acknowledge_anomaly db anomaly_id).1 = .ok anomaly_id ∧
      (api_acknowledge_anomaly db anomaly_id).2.rows.length = db.rows.length ∧
      (api_acknowledge_anomaly db anomaly_id).2.nextId = db.nextId ∧
      ∀ j : Nat, j < db.rows.length →
        ((api_acknowledge_anomaly db anomaly_id).2.rows.getD j default).id =
            (db.rows.getD j default).id ∧
        ((api_acknowledge_anomaly db anomaly_id).2.rows.getD j default).timestamp =
            (db.rows.getD j default).timestamp ∧
        ((api_acknowledge_anomaly db anomaly_id).2.rows.getD j default).device_id =
            (db.rows.getD j default).device_id ∧
        ((api_acknowledge_anomaly db anomaly_id).2.rows.getD j default).detection_method =
            (db.rows.getD j default).detection_method ∧
        ((api_acknowledge_anomaly db anomaly_id).2.rows.getD j default).severity =
            (db.rows.getD j default).severity ∧
        ((api_acknowledge_anomaly db anomaly_id).2.rows.getD j default).details =
            (db.rows.getD j default).details ∧
        ((api_acknowledge_anomaly db anomaly_id).2.rows.getD j default).acknowledged =
            ((db.rows.getD j default).acknowledged ||
              (db.rows.getD j default).id == anomaly_id) ∧
        ((db.rows.getD j default).id = anomaly_id →
          ((api_acknowledge_anomaly db anomaly_id).2.rows.getD j default).acknowledged =
            true)) ∧
    ((∀ e ∈ db.rows, e.id ≠ anomaly_id) →
      api_acknowledge_anomaly db anomaly_id = (.notFound, db)) := by
  constructor
  · rintro ⟨e, he, hid⟩
    have hmem : e ∈ db.rows.filter fun x => x.id == anomaly_id :=
      List.mem_filter.mpr ⟨he, by simp [hid]⟩
    have hlen : (db.rows.filter fun x => x.id == anomaly_id).length ≠ 0 := by
      intro h0
      rw [List.length_eq_zero] at h0
      simp [h0] at hmem
    unfold api_acknowledge_anomaly
    rw [if_neg hlen]
    refine ⟨rfl, by simp, rfl, fun j hj => ?_⟩
    rw [getD_map_lt _ db.rows j hj]
    generalize db.rows.getD j default = old
    by_cases hcase : old.id = anomaly_id <;> simp [hcase]
  · intro hall
    have hnil : (db.rows.filter fun x => x.id == anomaly_id) = [] := by
      rw [List.filter_eq_nil_iff]
      intro e he
      simp [hall e he]
    unfold api_acknowledge_anomaly
    rw [hnil]
    rfl

/-- Witness for `api_acknowledge_anomaly_spec`: on the one-event ledger,
acknowledging id 1 succeeds, acknowledging id 99 is NotFound and the ledger
is untouched. -/
theorem api_acknowledge_anomaly_spec_witness :
    (api_acknowledge_anomaly dupLedger 1).1 = .ok 1 ∧
    api_acknowledge_anomaly dupLedger 99 = (.notFound, dupLedger) :=
  ⟨((api_acknowledge_anomaly_spec dupLedger 1).1
      ⟨⟨1, 1000, 7, "z-score", .medium, dupAnomaly0, false⟩, by decide, rfl⟩).1,
   (api_acknowledge_anomaly_spec dupLedger 99).2 (by decide)⟩

/-- C7: the retention cleanup removes exactly the events whose timestamp
strictly precedes the cutoff: every surviving event is unchanged, was already
stored and has timestamp at or after the cutoff; every stored event at or
after the cutoff survives (exact-cutoff events are retained); every stored
event strictly before the cutoff is gone; order is preserved; and the
returned count plus the surviving count is the original count. -/
theorem cleanup_old_anomalies_spec (db : Ledger) (cutoff : Int) :
    (∀ e ∈ (cleanup_old_anomalies db cutoff).1.rows,
      cutoff ≤ e.timestamp ∧ e ∈ db.rows) ∧
    (∀ e ∈ db.rows, cutoff ≤ e.timestamp →
      e ∈ (cleanup_old_anomalies db cutoff).1.rows) ∧
    (∀ e ∈ db.rows, e.timestamp < cutoff →
      e ∉ (cleanup_old_anomalies db cutoff).1.rows) ∧
    (cleanup_old_anomalies db cutoff).1.rows.Sublist db.rows ∧
    (cleanup_old_anomalies db cutoff).1.nextId = db.nextId ∧
    (cleanup_old_anomalies db cutoff).2 +
      (cleanup_old_anomalies db cutoff).1.rows.length = db.rows.length := by
  refine ⟨fun e he => ?_, fun e he hts => ?_, fun e _ hts hmem => ?_,
    List.filter_sublist _, rfl, ?_⟩
  · rw [cleanup_old_anomalies] at he
    simp only [List.mem_filter, decide_eq_true_eq, not_lt] at he
    exact ⟨he.2, he.1⟩
  · rw [cleanup_old_anomalies]
    simp only [List.mem_filter, decide_eq_true_eq, not_lt]
    exact ⟨he, hts⟩
  · rw [cleanup_old_anomalies] at hmem
    simp only [List.mem_filter, decide_eq_true_eq, not_lt] at hmem
    exact absurd hts (not_lt.mpr hmem.2)
  · rw [cleanup_old_anomalies]
    simp only [decide_not]
    exact (List.length_eq_length_filter_add
      (fun e : AnomalyEvent => decide (e.timestamp < cutoff))).symm

/-- Witness for `cleanup_old_anomalies_spec`, exercising the cutoff boundary
both ways: the event at timestamp 1000 survives a cleanup with cutoff 1000
and is removed by a cleanup with cutoff 2000. -/
theorem cleanup_old_anomalies_spec_witness :
    (⟨1, 1000, 7, "z-score", .medium, dupAnomaly0, false⟩ : AnomalyEvent) ∈
      (cleanup_old_anomalies dupLedger 1000).1.rows ∧
    (⟨1, 1000, 7, "z-score", .medium, dupAnomaly0, false⟩ : AnomalyEvent) ∉
      (cleanup_old_anomalies dupLedger 2000).1.rows :=
  ⟨(cleanup_old_anomalies_spec dupLedger 1000).2.1
      ⟨1, 1000, 7, "z-score", .medium, dupAnomaly0, false⟩ (by decide) (by decide),
   (cleanup_old_anomalies_spec dupLedger 2000).2.2.1
      ⟨1, 1000, 7, "z-score", .medium, dupAnomaly0, false⟩ (by decide) (by decide)⟩

/-- A detection for device 3 with the newer event timestamp, persisted first. -/
def lateAnomaly : Anomaly := ⟨1000, 3, "z-score", [], none, [], .medium⟩

/-- A detection for device 3 with an older event timestamp (a lookback scan
can flag a record from further back), persisted second.  The two are more
than 5 minutes apart, so even the monitor path would persist both. -/
def earlyAnomaly : Anomaly := ⟨100, 3, "lof", [], none, [], .medium⟩

/-- A ledger reached by persisting `lateAnomaly` and then `earlyAnomaly`. -/
def outOfOrderLedger : Ledger :=
  save_anomaly_to_db (save_anomaly_to_db initLedger lateAnomaly) earlyAnomaly

/-- C8 counterexample: `get_all_anomalies` sorts by descending auto-assigned
id, i.e. newest-first by *insertion*, not by event timestamp.  On a ledger
where an older-timestamped event was persisted second, the returned sequence
has timestamps `[100, 1000]` — the event with the newer triggering-record
timestamp comes last, so the output is not ordered newest-first by event
timestamp. -/
theorem list_events_not_timestamp_ordered_cex :
    (get_all_anomalies outOfOrderLedger 100 none).map
        (fun e => e.timestamp) = [100, 1000] ∧
    (get_all_anomalies outOfOrderLedger 100 none).map
        (fun e => e.id) = [2, 1] := by
  constructor <;> rfl

/-- C8 amended: `get_all_anomalies` returns at most `limit` stored events,
ordered newest-first by insertion (descending auto-assigned id) — which need
not be newest-first by event timestamp — and restricted to the requested
device when a nonzero device filter is given. -/
theorem get_all_anomalies_spec (db : Ledger) (limit : Nat)
    (device_id : Option Int) :
    (get_all_anomalies db limit device_id).length ≤ limit ∧
    (get_all_anomalies db limit device_id).Sorted byIdDesc ∧
    (∀ e ∈ get_all_anomalies db limit device_id, e ∈ db.rows) ∧
    (∀ d : Int, device_id = some d → d ≠ 0 →
      ∀ e ∈ get_all_anomalies db limit device_id, e.device_id = d) := by
  refine ⟨?_, ?_, fun e he => ?_, fun d hd hd0 e he => ?_⟩
  · unfold get_all_anomalies
    split <;> simp
  · have hsorted : ∀ l : List AnomalyEvent,
        (List.insertionSort byIdDesc l).Sorted byIdDesc :=
      fun l => List.sorted_insertionSort byIdDesc l
    unfold get_all_anomalies
    split <;> exact List.Pairwise.sublist (List.take_sublist _ _) (hsorted _)
  · unfold get_all_anomalies at he
    split at he <;>
      [skip; exact (List.mem_insertionSort byIdDesc).mp
        (List.mem_of_mem_take he)]
    have := (List.mem_insertionSort byIdDesc).mp (List.mem_of_mem_take he)
    exact (List.mem_filter.mp this).1
  · subst hd
    unfold get_all_anomalies at he
    rw [if_pos (by simpa using hd0)] at he
    have := (List.mem_insertionSort byIdDesc).mp (List.mem_of_mem_take he)
    have hbeq := (List.mem_filter.mp this).2
    simpa using hbeq

/-- Witness for `get_all_anomalies_spec` on the concrete two-event ledger
with a device filter and limit 1: the (sole, most recently inserted) returned
event belongs to the filtered device. -/
theorem get_all_anomalies_spec_witness :
    (get_all_anomalies outOfOrderLedger 1 (some 3)).length ≤ 1 ∧
    (⟨2, 100, 3, "lof", .medium, earlyAnomaly, false⟩ : AnomalyEvent).device_id
      = 3 :=
  ⟨(get_all_anomalies_spec outOfOrderLedger 1 (some 3)).1,
   (get_all_anomalies_spec outOfOrderLedger 1 (some 3)).2.2.2 3 rfl
     (by decide) ⟨2, 100, 3, "lof", .medium, earlyAnomaly, false⟩ (by decide)⟩

/-- A feature column that is constant has the constant as its mean. -/
theorem colMean_const (features : List (List ℚ)) (j : Nat) (v : ℚ)
    (h : ∀ row ∈ features, row.getD j 0 = v) (hne : features ≠ []) :
    colMean features j = v := by
  unfold colMean
  have hmap : features.map (fun row => row.getD j 0) =
      List.replicate features.length v := by
    rw [List.map_congr_left h, List.map_const']
  rw [hmap, List.sum_replicate, nsmul_eq_mul]
  exact mul_div_cancel_left₀ v (by simpa using hne)

/-- A feature column that is constant has population variance 0 (for the
empty matrix both numerator and denominator are 0 and rational division by
zero is 0). -/
theorem colVar_const (features : List (List ℚ)) (j : Nat) (v : ℚ)
    (h : ∀ row ∈ features, row.getD j 0 = v) :
    colVar features j = 0 := by
  rcases eq_or_ne features [] with hne | hne
  · subst hne
    simp [colVar]
  · unfold colVar
    have hzero : ∀ row ∈ features,
        (row.getD j 0 - colMean features j) ^ 2 = (0 : ℚ) := by
      intro row hr
      rw [h row hr, colMean_const features j v h hne]
      ring
    have hmap : features.map
        (fun row => (row.getD j 0 - colMean features j) ^ 2) =
        List.replicate features.length (0 : ℚ) := by
      rw [List.map_congr_left hzero, List.map_const']
    rw [hmap, List.sum_replicate]
    simp

/-- The five feature names are pairwise distinct. -/
theorem metric_names_distinct :
    ∀ x, x < 5 → ∀ y, y < 5 → x ≠ y →
      metric_names.getD x "" ≠ metric_names.getD y "" := by decide

/-- C4: if a feature is constant (any value `v`) across the whole window, the
z-score detector never reports that feature: the zero standard deviation is
substituted by 1 (`substVar` of the zero variance is 1), which makes the
feature's z-score 0 for every record, and 0 never exceeds the (squared)
threshold, so no reported anomaly contains that feature. -/
theorem zscore_constant_feature_never_flagged
    (metrics : List MetricRecord) (threshold : ℚ) (j : Nat) (hj : j < 5)
    (v : ℚ) (hconst : ∀ row ∈ prepare_features metrics, row.getD j 0 = v) :
    substVar (colVar (prepare_features metrics) j) = 1 ∧
    (∀ row ∈ prepare_features metrics,
      (row.getD j 0 - colMean (prepare_features metrics) j) ^ 2 /
        substVar (colVar (prepare_features metrics) j) = 0) ∧
    (∀ a ∈ detect_zscore_anomalies metrics threshold,
      ∀ am ∈ a.anomalous_metrics, am.metric ≠ metric_names.getD j "") := by
  have hvar : colVar (prepare_features metrics) j = 0 :=
    colVar_const (prepare_features metrics) j v hconst
  have hsub : substVar (colVar (prepare_features metrics) j) = 1 := by
    rw [hvar]
    rfl
  have hzsq : ∀ row ∈ prepare_features metrics,
      (row.getD j 0 - colMean (prepare_features metrics) j) ^ 2 /
        substVar (colVar (prepare_features metrics) j) = 0 := by
    intro row hr
    have hne : prepare_features metrics ≠ [] := by
      intro hnil
      rw [hnil] at hr
      exact absurd hr (List.not_mem_nil row)
    rw [hsub, hconst row hr, colMean_const _ j v hconst hne]
    ring
  refine ⟨hsub, hzsq, fun a ha am ham => ?_⟩
  unfold detect_zscore_anomalies at ha
  split at ha
  · exact absurd ha (List.not_mem_nil a)
  · simp only [List.mem_filterMap] at ha
    obtain ⟨p, hp, hfp⟩ := ha
    split at hfp
    · exact absurd hfp (by simp)
    · have ham' : am ∈ zscoreMetricsFor (prepare_features metrics) threshold p.2 := by
        have := Option.some.inj hfp
        rw [← this] at ham
        exact ham
      unfold zscoreMetricsFor at ham'
      simp only [List.mem_filterMap, List.mem_range] at ham'
      obtain ⟨j', hj', hgj'⟩ := ham'
      split at hgj'
      · next hcond =>
        have hamval := Option.some.inj hgj'
        have hmetric : am.metric = metric_names.getD j' "" := by
          rw [← hamval]
        have hne : j' ≠ j := by
          intro heq
          subst heq
          have hrow : p.2 ∈ prepare_features metrics :=
            (List.of_mem_zip hp).2
          rw [hzsq p.2 hrow] at hcond
          exact absurd hcond (not_lt.mpr (sq_nonneg threshold))
        rw [hmetric]
        exact metric_names_distinct j' hj' j hj hne
      · exact absurd hgj' (by simp)

/-- Witness for `zscore_constant_feature_never_flagged` on a 50-record window
whose cpu column is constantly 0: the substituted variance evaluates to 1. -/
theorem zscore_constant_feature_never_flagged_witness :
    substVar (colVar (prepare_features fiftyRecords) 0) = 1 :=
  (zscore_constant_feature_never_flagged fiftyRecords 3 0 (by decide) 0
    (by decide)).1

end CMND
